import Mathlib

/-!
Shallow embedding of the simulation core of `src/main.rs` ("Pong with Guns").

Modelling conventions, used throughout:
* `f32` values are modelled as exact rationals (`ℚ`).  All arithmetic the
  source performs on them (`+`, `-`, `*`, `/`, `powf(2.0)`, comparisons,
  `clamp`) is translated literally; rounding error of `f32` is not modelled.
  Division is Lean's total division, so `x / 0 = 0` (the source would produce
  `inf`/`NaN` there; every place where this matters is noted at the theorem
  concerned).
* `f32::sqrt` has no exact rational counterpart, so every function that the
  source computes with `sqrt` takes an oracle parameter `rt : ℚ → ℚ` standing
  for `f32::sqrt`; theorems that depend on the value constrain the oracle at
  the point of use by `0 ≤ rt x` and `(rt x) ^ 2 = x`, which is what an exact
  square root satisfies.
* `i32` counters (`hitstun`, scores) are modelled as `ℤ`; `as i32` casts of
  `f32` truncate toward zero, modelled by `truncToZero`.
* Entity identifiers of the `hecs` world are modelled as `ℕ`; the world keeps
  the entities in three typed lists (balls, paddles, bullets) and a fresh-id
  counter.  Rendering, audio and the cosmetic particle storage are outside the
  simulation core (spec §1) and are not part of the state.
* The Rust `despawn(..).unwrap()` panic is modelled by a `crashed` flag on the
  world state: once a despawn of a missing identifier happens the flag is set
  and processing of the removal list stops, mirroring the abort.
-/

namespace Pong

/-- Two dimensional `f32` vector, modelled exactly. -/
abbrev Vec2 := ℚ × ℚ

/-- Component storing an object's position and velocity (`struct Transform`). -/
structure Transform where
  position : Vec2
  velocity : Vec2
deriving DecidableEq

/-- Collision bounds (`struct Bounds(f32, f32)`); the source comment calls the
fields `(radius, length)`, the spec's data model calls them
`(half_width, half_height)`.  `b0` is field `.0`, `b1` is field `.1`. -/
structure Bounds where
  b0 : ℚ
  b1 : ℚ
deriving DecidableEq

/-- The ball component (`struct Ball`). -/
structure Ball where
  radius : ℚ
  speed : ℚ
deriving DecidableEq

/-- The bullet component (`struct Bullet`). -/
structure Bullet where
  radius : ℚ
deriving DecidableEq

/-- Match phase (`enum Phase`). -/
inductive Phase where
  | Start
  | Ongoing
  | LeftWin
  | RightWin
deriving DecidableEq

/-- Control component (`enum ControlType`).  Key bindings of a player are
abstracted to an index into the environment's input maps; the `f64` field is
the firing-cooldown timestamp (for `Player`) or the unused AI timer. -/
inductive ControlType where
  | Player (idx : ℕ) (cooldown : ℚ)
  | AI (timer : ℚ)
deriving DecidableEq

/-- Truncation toward zero, the semantics of Rust's `as i32` cast on `f32`. -/
def truncToZero (q : ℚ) : ℤ := if 0 ≤ q then ⌊q⌋ else ⌈q⌉

/-- Rust's `f32::round`: round half away from zero.  Used only to state what
the spec claims the code does. -/
def rustRound (q : ℚ) : ℤ := if 0 ≤ q then ⌊q + 1/2⌋ else ⌈q - 1/2⌉

/-- `fn square_distance` of the source. -/
def square_distance (x1 y1 x2 y2 : ℚ) : ℚ :=
  (x1 - x2) ^ 2 + (y1 - y2) ^ 2

/-- `fn square_distance_point_segment` of the source: squared distance between
point `c` and segment `ab`. -/
def square_distance_point_segment (a b c : Vec2) : ℚ :=
  let ab := (b.1 - a.1, b.2 - a.2)
  let ac := (c.1 - a.1, c.2 - a.2)
  let bc := (c.1 - b.1, c.2 - b.2)
  let e := ac.1 * ab.1 + ac.2 * ab.2
  if e ≤ 0 then ac.1 * ac.1 + ac.2 * ac.2
  else
    let f := ab.1 * ab.1 + ab.2 * ab.2
    if e ≥ f then bc.1 * bc.1 + bc.2 * bc.2
    else (ac.1 * ac.1 + ac.2 * ac.2) - e * e / f

/-- `fn test_sphere_capsule` of the source.  Note that the capsule's segment
endpoints are built from `capsule.1.1 / 2.0`, i.e. half of the second `Bounds`
field. -/
def test_sphere_capsule (sphere : Transform × Ball) (capsule : Transform × Bounds) : Bool :=
  let dist2 := square_distance_point_segment
    (capsule.1.position.1, capsule.1.position.2 + capsule.2.b1 / 2)
    (capsule.1.position.1, capsule.1.position.2 - capsule.2.b1 / 2)
    sphere.1.position
  dist2 ≤ (sphere.2.radius + capsule.2.b0) ^ 2

/-- Dot product, used by the spec-side formulations. -/
def dotQ (u v : Vec2) : ℚ := u.1 * v.1 + u.2 * v.2

/-- Vector difference, used by the spec-side formulations. -/
def subQ (u v : Vec2) : Vec2 := (u.1 - v.1, u.2 - v.2)

/-- Point-segment squared distance written from the spec's words (§4.2):
`e = dot(c-a, b-a)`; if `e <= 0` return `|c-a|²`; if `e >= |b-a|²` return
`|c-b|²`; otherwise `|c-a|² - e²/|b-a|²`. -/
def specSqDistPointSegment (a b c : Vec2) : ℚ :=
  let e := dotQ (subQ c a) (subQ b a)
  if e ≤ 0 then square_distance c.1 c.2 a.1 a.2
  else if e ≥ square_distance b.1 b.2 a.1 a.2 then square_distance c.1 c.2 b.1 b.2
  else square_distance c.1 c.2 a.1 a.2 - e ^ 2 / square_distance b.1 b.2 a.1 a.2

/-- Overlap test written from the spec's words (§4.2 / claim C1): segment
endpoints at `capsuleCenter ± (0, halfHeight)` where `halfHeight` is the
second `Bounds` field, and threshold `(sphereRadius + capsuleHalfWidth)²`. -/
def sphereCapsuleOverlapSpec (sphereCenter : Vec2) (sphereRadius : ℚ)
    (capsuleCenter : Vec2) (capsuleHalfWidth capsuleHalfHeight : ℚ) : Bool :=
  square_distance_point_segment
    (capsuleCenter.1, capsuleCenter.2 + capsuleHalfHeight)
    (capsuleCenter.1, capsuleCenter.2 - capsuleHalfHeight)
    sphereCenter
  ≤ (sphereRadius + capsuleHalfWidth) ^ 2

/-- Pre-normalization direction the bullet-vs-ball response redirects the ball
toward: `(ballPos - bulletPos)/2 + bulletVelocity * 0.25` (source lines
713-718). -/
def bulletRedirect (ballT bulletT : Transform) : Vec2 :=
  ((ballT.position.1 - bulletT.position.1) / 2 + bulletT.velocity.1 * (1/4),
   (ballT.position.2 - bulletT.position.2) / 2 + bulletT.velocity.2 * (1/4))

/-- Bullet-vs-ball collision response (source lines 713-725): overwrite the
ball's velocity with the redirect direction, then renormalize it to the ball's
`speed` by dividing by the `sqrt` magnitude.  There is no guard for a zero
magnitude in the source; the division is applied unconditionally. -/
def bulletBallResponse (ballT : Transform) (ball : Ball) (bulletT : Transform)
    (rt : ℚ → ℚ) : Transform :=
  let v := bulletRedirect ballT bulletT
  let magnitude := rt (v.1 ^ 2 + v.2 ^ 2)
  { ballT with velocity := (v.1 / magnitude * ball.speed, v.2 / magnitude * ball.speed) }

/-- Pre-normalization direction of the ball-vs-paddle response:
`((ballPos - paddlePos) / (halfWidth, halfHeight)) + paddleVelocity * 0.25`
(source lines 864-869). -/
def paddleRedirect (ballT paddleT : Transform) (pb : Bounds) : Vec2 :=
  ((ballT.position.1 - paddleT.position.1) / pb.b0 + paddleT.velocity.1 * (1/4),
   (ballT.position.2 - paddleT.position.2) / pb.b1 + paddleT.velocity.2 * (1/4))

/-- Ball-vs-paddle collision response (source lines 862-898): update the speed
to `speed + 0.5/speed`, redirect the velocity, renormalize to the new speed by
dividing by the `sqrt` magnitude (again with no zero guard), and return the
hitstun gain `(ball.speed * 2.0) as i32` computed from the updated speed. -/
def paddleBallResponse (rt : ℚ → ℚ) (ballT : Transform) (ball : Ball)
    (paddleT : Transform) (pb : Bounds) : Transform × Ball × ℤ :=
  let speed' := ball.speed + (1/2) / ball.speed
  let v := paddleRedirect ballT paddleT pb
  let magnitude := rt (v.1 ^ 2 + v.2 ^ 2)
  ({ ballT with velocity := (v.1 / magnitude * speed', v.2 / magnitude * speed') },
   { ball with speed := speed' },
   truncToZero (speed' * 2))

/-- Demonstration square-root oracle used by concrete witnesses: correct at the
points those witnesses evaluate it (`rtDemo 25 = 5`, `rtDemo 0 = 0`). -/
def rtDemo : ℚ → ℚ := fun q => if q = 25 then 5 else 0

/-- Per-frame environment: everything outside the entity store that the frame
update reads.  The input layer is abstracted (spec §6) to per-player "is this
control held" maps keyed by the player index stored in `ControlType.Player`,
plus the start edge; `rt` stands for `f32::sqrt` and `jitter` for the uniform
random sample in `[-0.1, 0.1]` drawn for a spawned bullet's vertical
velocity. -/
structure GameEnv where
  screenW : ℚ
  screenH : ℚ
  time : ℚ
  spacePressed : Bool
  keyUp : ℕ → Bool
  keyDown : ℕ → Bool
  keyLeft : ℕ → Bool
  keyRight : ℕ → Bool
  jitter : ℚ
  rt : ℚ → ℚ

/-- The entity world plus the `GameState` fields of the simulation core.  The
`hecs` world is modelled as three typed entity lists with `ℕ` identifiers and
a fresh-identifier counter; `crashed` models a `despawn(..).unwrap()` panic.
The rendering-only colour fields of the source's `GameState` are omitted. -/
structure WorldState where
  balls : List (ℕ × Transform × Ball)
  paddles : List (ℕ × Transform × Bounds × ControlType)
  bullets : List (ℕ × Transform × Bullet)
  nextId : ℕ
  phase : Phase
  left_score : ℤ
  right_score : ℤ
  intensity : ℚ
  hitstun : ℤ
  crashed : Bool
deriving DecidableEq

/-- `macroquad::math::clamp(value, min, max)` and `f32::clamp`: both return
`min` below the range, `max` above it, the value otherwise. -/
def clampQ (x lo hi : ℚ) : ℚ := if x < lo then lo else if x > hi then hi else x

/-- `(b as i32) as f32` on a `bool`. -/
def boolToQ (b : Bool) : ℚ := if b then 1 else 0

/-- `f32::MAX`, the initial best distance of the AI's nearest-ball scan. -/
def f32Max : ℚ := 2 ^ 128 - 2 ^ 104

/-- One integration substep for one `Transform` (source lines 574-587):
`position += velocity`, each axis clamped to `[-16, dimension + 16]`. -/
def integTransform (e : GameEnv) (t : Transform) : Transform :=
  { t with position :=
      (clampQ (t.position.1 + t.velocity.1) (-16) (e.screenW + 16),
       clampQ (t.position.2 + t.velocity.2) (-16) (e.screenH + 16)) }

/-- Position integration over every entity with a `Transform`. -/
def integrateAll (e : GameEnv) (s : WorldState) : WorldState :=
  { s with
    balls := s.balls.map fun b => (b.1, integTransform e b.2.1, b.2.2)
    paddles := s.paddles.map fun p => (p.1, integTransform e p.2.1, p.2.2)
    bullets := s.bullets.map fun b => (b.1, integTransform e b.2.1, b.2.2) }

/-- The AI's nearest-ball scan (source lines 645-658): fold over the ball
snapshot keeping the strictly closer candidate, seeded with the first ball and
`f32::MAX`. -/
def nearestBall (t : Transform) : List (ℕ × Transform × Ball) →
    (ℕ × Transform × Ball) → ℚ → (ℕ × Transform × Ball) × ℚ
  | [], best, bestD => (best, bestD)
  | x :: rest, best, bestD =>
    let d := square_distance t.position.1 t.position.2 x.2.1.position.1 x.2.1.position.2
    if d < bestD then nearestBall t rest x d else nearestBall t rest best bestD

/-- Per-paddle control processing (source lines 597-690): velocity damping by
`0.95`, then either player input handling (vertical acceleration by `±0.3`,
and a bullet spawn request when exactly one horizontal key is held and the
cooldown has elapsed) or the AI chase of the nearest ball.  Returns the
updated paddle and its spawn requests. -/
def procOnePaddle (e : GameEnv) (ballsSnap : List (ℕ × Transform × Ball))
    (p : ℕ × Transform × Bounds × ControlType) :
    (ℕ × Transform × Bounds × ControlType) × List (Transform × Bullet) :=
  let i := p.1
  let t := p.2.1
  let bd := p.2.2.1
  let v := (t.velocity.1 * (19/20), t.velocity.2 * (19/20))
  match p.2.2.2 with
  | ControlType.Player idx cooldown =>
    let t' := { t with velocity :=
      (v.1, v.2 + (boolToQ (e.keyDown idx) - boolToQ (e.keyUp idx)) * (3/10)) }
    if (Bool.xor (e.keyRight idx) (e.keyLeft idx)) ∧ e.time > cooldown then
      ((i, t', bd, ControlType.Player idx (e.time + 7/20)),
       [({ position :=
             (t.position.1 + (boolToQ (e.keyRight idx) - boolToQ (e.keyLeft idx)) * 32,
              t.position.2),
           velocity :=
             ((boolToQ (e.keyRight idx) - boolToQ (e.keyLeft idx)) * 2, e.jitter) },
         { radius := 2 })])
    else ((i, t', bd, ControlType.Player idx cooldown), [])
  | ControlType.AI timer =>
    match ballsSnap with
    | [] => ((i, { t with velocity := v }, bd, ControlType.AI timer), [])
    | first :: _ =>
      let td := nearestBall t ballsSnap first f32Max
      let target := td.1
      let t' := { t with velocity :=
        (v.1, v.2 + clampQ
          ((boolToQ (t.position.2 < target.2.1.position.2) -
            boolToQ (t.position.2 > target.2.1.position.2)) *
           (60 * e.rt td.2 / e.screenW)) (-(1/4)) (1/4)) }
      ((i, t', bd, ControlType.AI timer), [])

/-- `spawn_batch`: assign consecutive fresh identifiers to queued bullets. -/
def assignIds : ℕ → List (Transform × Bullet) → List (ℕ × Transform × Bullet)
  | _, [] => []
  | n, x :: rest => (n, x.1, x.2) :: assignIds (n + 1) rest

/-- The paddle-processing pass of one substep (source lines 589-692): process
every paddle against a snapshot of the current balls, then spawn the queued
bullets. -/
def paddleProc (e : GameEnv) (s : WorldState) : WorldState :=
  let results := s.paddles.map (procOnePaddle e s.balls)
  let queue := (results.map Prod.snd).flatten
  { s with
    paddles := results.map Prod.fst
    bullets := s.bullets ++ assignIds s.nextId queue
    nextId := s.nextId + queue.length }

/-- One bullet against every live ball (source lines 702-746): on overlap
(squared center distance < ball radius²) apply `bulletBallResponse` and record
one removal mark.  Returns the updated ball list and the number of hits. -/
def bulletVsBalls (rt : ℚ → ℚ) (bt : Transform) :
    List (ℕ × Transform × Ball) → List (ℕ × Transform × Ball) × ℕ
  | [] => ([], 0)
  | (i, t, b) :: rest =>
    let tail := bulletVsBalls rt bt rest
    if square_distance bt.position.1 bt.position.2 t.position.1 t.position.2
        < b.radius ^ 2 then
      ((i, bulletBallResponse t b bt rt, b) :: tail.1, tail.2 + 1)
    else ((i, t, b) :: tail.1, tail.2)

/-- One bullet against every paddle capsule (source lines 747-781): on overlap
reduce that paddle's second `Bounds` field by `1.0` and record one removal
mark.  Returns the updated paddle list and the number of hits. -/
def bulletVsPaddles (bt : Transform) (bl : Bullet) :
    List (ℕ × Transform × Bounds × ControlType) →
    List (ℕ × Transform × Bounds × ControlType) × ℕ
  | [] => ([], 0)
  | (i, t, bd, c) :: rest =>
    let tail := bulletVsPaddles bt bl rest
    if test_sphere_capsule (bt, { radius := bl.radius, speed := 0 }) (t, bd) then
      ((i, t, { bd with b1 := bd.b1 - 1 }, c) :: tail.1, tail.2 + 1)
    else ((i, t, bd, c) :: tail.1, tail.2)

/-- Sequential scan of the bullet snapshot (source lines 696-782): each bullet
is tested against the live balls and then the live paddles; later bullets see
the mutations made for earlier ones.  Returns the updated world and the
removal-mark list (the bullet's identifier once per resolved collision, in
processing order). -/
def scanBullets (e : GameEnv) :
    List (ℕ × Transform × Bullet) → WorldState → WorldState × List ℕ
  | [], s => (s, [])
  | (i, t, bl) :: rest, s =>
    let hitBalls := bulletVsBalls e.rt t s.balls
    let hitPaddles := bulletVsPaddles t bl s.paddles
    let next := scanBullets e rest { s with balls := hitBalls.1, paddles := hitPaddles.1 }
    (next.1, List.replicate (hitBalls.2 + hitPaddles.2) i ++ next.2)

/-- Is some live entity carrying identifier `i`? -/
def idLive (i : ℕ) (s : WorldState) : Bool :=
  s.balls.any (fun b => b.1 = i) || s.paddles.any (fun p => p.1 = i) ||
    s.bullets.any (fun b => b.1 = i)

/-- `World::despawn`: remove the entity with identifier `i`, or fail if no
such entity is live. -/
def despawn (i : ℕ) (s : WorldState) : Option WorldState :=
  if idLive i s then
    some { s with
      balls := s.balls.filter fun b => b.1 ≠ i
      paddles := s.paddles.filter fun p => p.1 ≠ i
      bullets := s.bullets.filter fun b => b.1 ≠ i }
  else none

/-- The removal step (source lines 783-786): for each mark, despawn it with
`unwrap` and add 1 to `hitstun`.  A failing despawn panics, modelled by
setting `crashed` and stopping. -/
def removeMarked : List ℕ → WorldState → WorldState
  | [], s => s
  | i :: rest, s =>
    match despawn i s with
    | some s' => removeMarked rest { s' with hitstun := s'.hitstun + 1 }
    | none => { s with crashed := true }

/-- Fold of one ball over the paddle snapshot (source lines 861-899): each
overlapping capsule applies `paddleBallResponse`; the hitstun gains are
accumulated. -/
def paddleFold (rt : ℚ → ℚ) : List (ℕ × Transform × Bounds) →
    Transform → Ball → Transform × Ball × ℤ
  | [], t, b => (t, b, 0)
  | (_, pt, pbd) :: rest, t, b =>
    if test_sphere_capsule (t, b) (pt, pbd) then
      let r := paddleBallResponse rt t b pt pbd
      let next := paddleFold rt rest r.1 r.2.1
      (next.1, next.2.1, r.2.2 + next.2.2)
    else paddleFold rt rest t b

/-- The per-ball loop of the ball pass (source lines 797-918), iterating over
the live balls with the Rust `break` semantics: a goal despawns the ball,
transitions the phase, bumps the scorer's counter and stops the whole loop for
this substep; otherwise the ball is bounced off the vertical bounds, folded
over the paddle snapshot, and its speed is accumulated into `intensity`. -/
def ballLoop (e : GameEnv) (snap : List (ℕ × Transform × Bounds)) :
    List (ℕ × Transform × Ball) → List (ℕ × Transform × Ball) → WorldState → WorldState
  | [], acc, s => { s with balls := acc.reverse }
  | (i, t, b) :: rest, acc, s =>
    if t.position.1 > e.screenW ∧ s.phase = Phase.Ongoing then
      { s with phase := Phase.LeftWin, left_score := s.left_score + 1,
               balls := acc.reverse ++ rest }
    else if t.position.1 < 0 ∧ s.phase = Phase.Ongoing then
      { s with phase := Phase.RightWin, right_score := s.right_score + 1,
               balls := acc.reverse ++ rest }
    else
      let t1 := if t.position.2 < 0 ∨ t.position.2 > e.screenH then
          { t with position := (t.position.1, clampQ t.position.2 0 e.screenH),
                   velocity := (t.velocity.1, t.velocity.2 * (-1)) }
        else t
      let r := paddleFold e.rt snap t1 b
      ballLoop e snap rest ((i, r.1, r.2.1) :: acc)
        { s with hitstun := s.hitstun + r.2.2,
                 intensity := s.intensity + r.2.1.speed }

/-- The ball pass of one substep (source lines 789-920): snapshot the paddles,
reset `intensity`, run the per-ball loop, then scale the accumulated
`intensity` by 4. -/
def ballPass (e : GameEnv) (s : WorldState) : WorldState :=
  let snap := s.paddles.map fun p => (p.1, p.2.1, p.2.2.1)
  let s' := ballLoop e snap s.balls [] { s with intensity := 0 }
  { s' with intensity := s'.intensity * 4 }

/-- The identifiers marked for removal by the bullet scan of a substep that
starts from `s`: computed from the state after integration and paddle
processing, over the then-current bullet snapshot. -/
def substepMarks (e : GameEnv) (s : WorldState) : List ℕ :=
  (scanBullets e (paddleProc e (integrateAll e s)).bullets
    (paddleProc e (integrateAll e s))).2

/-- One physics substep (the body of `for _i in 1..4`, source lines 572-921):
integration, paddle processing, bullet scan, bullet removal, ball pass. -/
def substep (e : GameEnv) (s : WorldState) : WorldState :=
  let s2 := paddleProc e (integrateAll e s)
  let scanned := scanBullets e s2.bullets s2
  ballPass e (removeMarked scanned.2 scanned.1)

/-- The phase state change (source lines 543-569): when the phase is not
`Ongoing` and the start edge is observed, spawn a ball at field center with
horizontal speed `screen_width/1280` signed away from the previous winner's
side, reset every `Bounds` to `(16, 64)`, and set the phase to `Ongoing`. -/
def stateChange (e : GameEnv) (s : WorldState) : WorldState :=
  if s.phase ≠ Phase.Ongoing ∧ e.spacePressed then
    { s with
      balls := s.balls ++ [(s.nextId,
        { position := (e.screenW / 2, e.screenH / 2),
          velocity := (e.screenW / 1280 *
            (boolToQ (s.phase ≠ Phase.RightWin) - boolToQ (s.phase = Phase.RightWin)), 0) },
        { radius := 16, speed := e.screenW / 1280 })],
      nextId := s.nextId + 1,
      paddles := s.paddles.map fun p => (p.1, p.2.1, ⟨16, 64⟩, p.2.2.2),
      phase := Phase.Ongoing }
  else s

/-- Three substeps, the fixed substep count of a simulated frame. -/
def threeSubsteps (e : GameEnv) (s : WorldState) : WorldState :=
  substep e (substep e (substep e s))

/-- The simulated part of a frame while not frozen: state change, then three
substeps. -/
def simFrame (e : GameEnv) (s : WorldState) : WorldState :=
  threeSubsteps e (stateChange e s)

/-- One frame of the simulation core (source lines 543-924): if `hitstun <= 0`
run the state change and the three substeps, otherwise only decrement
`hitstun`.  Rendering, audio and the cosmetic particles are outside the core
and not modelled. -/
def tick (e : GameEnv) (s : WorldState) : WorldState :=
  if s.hitstun ≤ 0 then simFrame e s
  else { s with hitstun := s.hitstun - 1 }

/-- Concrete environment instance used by witnesses: a 100×100 field, start
edge pressed, no keys held, zero jitter, demonstration sqrt oracle. -/
def envDemo : GameEnv :=
  ⟨100, 100, 0, true, fun _ => false, fun _ => false, fun _ => false, fun _ => false, 0, rtDemo⟩

/-- Concrete environment instance with no start edge. -/
def envQuiet : GameEnv :=
  ⟨100, 100, 0, false, fun _ => false, fun _ => false, fun _ => false, fun _ => false, 0, rtDemo⟩

/-- C9: the source point-segment squared distance agrees everywhere with the
spec's formulation (`e = dot(c-a, b-a)`; endpoint branch for `e ≤ 0`, endpoint
branch for `e ≥ |b-a|²`, perpendicular term otherwise, in that priority
order), and on the segment `(0,0)–(0,10)` it maps `(0,5)` to `0`, `(0,-5)` to
`25`, and `(5,5)` to `25`. -/
theorem c9_point_segment :
    (∀ a b c : Vec2, square_distance_point_segment a b c = specSqDistPointSegment a b c) ∧
    square_distance_point_segment (0, 0) (0, 10) (0, 5) = 0 ∧
    square_distance_point_segment (0, 0) (0, 10) (0, -5) = 25 ∧
    square_distance_point_segment (0, 0) (0, 10) (5, 5) = 25 := by
  refine ⟨fun a b c => ?_, by norm_num [square_distance_point_segment],
    by norm_num [square_distance_point_segment],
    by norm_num [square_distance_point_segment]⟩
  simp only [square_distance_point_segment, specSqDistPointSegment, dotQ, subQ, square_distance]
  have hf : ((b.1 - a.1) ^ 2 + (b.2 - a.2) ^ 2 : ℚ) =
      (b.1 - a.1) * (b.1 - a.1) + (b.2 - a.2) * (b.2 - a.2) := by ring
  rw [hf]
  split_ifs <;> ring

/-- C1 counterexample: the source overlap test is NOT the spec's test with
segment endpoints at `capsuleCenter ± (0, halfHeight)` (where `halfHeight` is
the second `Bounds` field): for a sphere of radius 1 at `(0, 40)` and a
capsule at the origin with `Bounds (1, 64)`, the spec's construction reports
an overlap while the source (which uses endpoints at
`capsuleCenter ± (0, halfHeight/2)`) reports none. -/
theorem c1_counterexample :
    test_sphere_capsule (⟨(0, 40), (0, 0)⟩, ⟨1, 1⟩) (⟨(0, 0), (0, 0)⟩, ⟨1, 64⟩) = false ∧
    sphereCapsuleOverlapSpec (0, 40) 1 (0, 0) 1 64 = true := by
  constructor <;>
    norm_num [test_sphere_capsule, sphereCapsuleOverlapSpec, square_distance_point_segment]

/-- C1 (amended): the overlap test builds the capsule's segment endpoints at
`capsuleCenter ± (0, halfHeight / 2)` — half of the second `Bounds` field —
and returns true iff the squared point-segment distance from the sphere
center is `≤ (sphereRadius + capsuleHalfWidth)²`; with `halfHeight = 0` it
reduces to a circle-circle test on the squared center distance. -/
theorem c1_amended :
    (∀ (st : Transform) (b : Ball) (ct : Transform) (bd : Bounds),
      test_sphere_capsule (st, b) (ct, bd) = true ↔
        square_distance_point_segment
          (ct.position.1, ct.position.2 + bd.b1 / 2)
          (ct.position.1, ct.position.2 - bd.b1 / 2) st.position
          ≤ (b.radius + bd.b0) ^ 2) ∧
    (∀ (st : Transform) (b : Ball) (ct : Transform) (bd : Bounds), bd.b1 = 0 →
      (test_sphere_capsule (st, b) (ct, bd) = true ↔
        square_distance st.position.1 st.position.2 ct.position.1 ct.position.2
          ≤ (b.radius + bd.b0) ^ 2)) := by
  constructor
  · intro st b ct bd
    simp [test_sphere_capsule]
  · intro st b ct bd h
    have hseg : square_distance_point_segment
        (ct.position.1, ct.position.2 + bd.b1 / 2)
        (ct.position.1, ct.position.2 - bd.b1 / 2) st.position =
        square_distance st.position.1 st.position.2 ct.position.1 ct.position.2 := by
      rw [h]
      simp only [square_distance_point_segment, square_distance]
      norm_num
      ring
    simp [test_sphere_capsule, hseg]

/-- C1 amended witness: the amended characterization at the counterexample's
input, and the degenerate circle-circle case at `halfHeight = 0`. -/
theorem c1_amended_witness :
    (test_sphere_capsule (⟨(0, 40), (0, 0)⟩, ⟨1, 1⟩) (⟨(0, 0), (0, 0)⟩, ⟨1, 64⟩) = true ↔
      square_distance_point_segment (0, 0 + (64 : ℚ) / 2) (0, 0 - (64 : ℚ) / 2) (0, 40)
        ≤ ((1 : ℚ) + 1) ^ 2) ∧
    (test_sphere_capsule (⟨(3, 4), (0, 0)⟩, ⟨1, 1⟩) (⟨(0, 0), (0, 0)⟩, ⟨1, 0⟩) = true ↔
      square_distance 3 4 0 0 ≤ ((1 : ℚ) + 1) ^ 2) :=
  ⟨c1_amended.1 ⟨(0, 40), (0, 0)⟩ ⟨1, 1⟩ ⟨(0, 0), (0, 0)⟩ ⟨1, 64⟩,
   c1_amended.2 ⟨(3, 4), (0, 0)⟩ ⟨1, 1⟩ ⟨(0, 0), (0, 0)⟩ ⟨1, 0⟩ rfl⟩

/-- C2: evaluation of the collision responses at the zero-magnitude input.
A bullet at the ball's center with zero velocity does overlap the ball and
makes the pre-normalization direction the zero vector, so the source divides
by a zero magnitude (`f32` would produce a NaN velocity); there is no guard,
and the resulting velocity is not the pre-collision velocity `(5, 0)` — the
renormalization is not skipped.  The same holds for the ball-vs-paddle
response with the ball centered on the paddle.  (`rtDemo 0 = 0`, as any model
of `f32::sqrt` must satisfy.) -/
theorem c2_code_eval :
    square_distance 10 10 10 10 < (16 : ℚ) ^ 2 ∧
    bulletRedirect ⟨(10, 10), (5, 0)⟩ ⟨(10, 10), (0, 0)⟩ = (0, 0) ∧
    rtDemo 0 = 0 ∧
    (bulletBallResponse ⟨(10, 10), (5, 0)⟩ ⟨16, 3⟩ ⟨(10, 10), (0, 0)⟩ rtDemo).velocity
      ≠ (5, 0) ∧
    paddleRedirect ⟨(0, 0), (5, 0)⟩ ⟨(0, 0), (0, 0)⟩ ⟨1, 1⟩ = (0, 0) ∧
    (paddleBallResponse rtDemo ⟨(0, 0), (5, 0)⟩ ⟨16, 3⟩ ⟨(0, 0), (0, 0)⟩ ⟨1, 1⟩).1.velocity
      ≠ (5, 0) := by
  norm_num [square_distance, bulletRedirect, bulletBallResponse, paddleBallResponse,
    paddleRedirect, rtDemo, Prod.ext_iff]

/-- C4 counterexample: a paddle whose second `Bounds` field (the spec's
`half_height`) is already `0` is still collidable — the capsule keeps its
`half_width` radius — and the bullet-vs-paddle pass decrements the field to
`-1`, violating `half_height ≥ 0`. -/
theorem c4_counterexample :
    (bulletVsPaddles ⟨(0, 0), (0, 0)⟩ ⟨2⟩
        [(0, ⟨(0, 0), (0, 0)⟩, ⟨16, 0⟩, ControlType.AI 0)]).1 =
      [(0, ⟨(0, 0), (0, 0)⟩, ⟨16, -1⟩, ControlType.AI 0)] ∧
    ¬ (0 : ℚ) ≤ -1 := by
  constructor
  · simp [bulletVsPaddles, test_sphere_capsule, square_distance_point_segment]
    norm_num
  · norm_num

/-- C4 (amended): each resolved bullet hit reduces the hit paddle's second
`Bounds` field by exactly `1.0`, with no lower clamp, so the field stays
nonnegative after a hit iff it was at least 1 before it; since a capsule with
a zero-length segment is still collidable through its `half_width`, the field
can become negative and `half_height ≥ 0` is not an invariant of the code. -/
theorem c4_amended :
    ∀ (bt : Transform) (bl : Bullet) (ps : List (ℕ × Transform × Bounds × ControlType)),
      (bulletVsPaddles bt bl ps).1 = ps.map (fun p =>
        if test_sphere_capsule (bt, { radius := bl.radius, speed := 0 }) (p.2.1, p.2.2.1)
        then (p.1, p.2.1, { p.2.2.1 with b1 := p.2.2.1.b1 - 1 }, p.2.2.2) else p) ∧
      (∀ bd : Bounds, 0 ≤ bd.b1 - 1 ↔ 1 ≤ bd.b1) := by
  intro bt bl ps
  constructor
  · induction ps with
    | nil => simp [bulletVsPaddles]
    | cons hd rest ih =>
      obtain ⟨i, t, bd, c⟩ := hd
      simp only [bulletVsPaddles, List.map_cons]
      split_ifs with h <;> simp [ih, h]
  · intro bd
    constructor <;> intro h <;> linarith

/-- C5 counterexample: on a resolved paddle collision with pre-collision speed
`2`, the updated speed is `9/4`, the code adds `(9/4 * 2) as i32 = 4` to
`hitstun`, but `round(9/4 * 2) = round(4.5) = 5`: the code truncates toward
zero rather than rounding to nearest. -/
theorem c5_counterexample :
    (paddleBallResponse rtDemo ⟨(1, 1), (0, 0)⟩ ⟨16, 2⟩ ⟨(0, 0), (0, 0)⟩ ⟨1, 1⟩).2.1.speed
      = 9/4 ∧
    (paddleBallResponse rtDemo ⟨(1, 1), (0, 0)⟩ ⟨16, 2⟩ ⟨(0, 0), (0, 0)⟩ ⟨1, 1⟩).2.2 = 4 ∧
    rustRound ((9/4) * 2) = 5 ∧
    (4 : ℤ) ≠ 5 := by
  refine ⟨by norm_num [paddleBallResponse], ?_, ?_, by norm_num⟩
  · norm_num [paddleBallResponse, truncToZero]
  · norm_num [rustRound]

/-- C5 (amended): the amount added to `hitstun` on a resolved ball-vs-paddle
collision is the `as i32` truncation toward zero of `speed * 2` computed from
the post-update speed; for any positive pre-collision speed this equals
`⌊(speed + 0.5/speed) * 2⌋`. -/
theorem c5_amended :
    ∀ (rt : ℚ → ℚ) (t : Transform) (b : Ball) (pt : Transform) (pb : Bounds),
      0 < b.speed →
      (paddleBallResponse rt t b pt pb).2.2 = ⌊(b.speed + (1/2) / b.speed) * 2⌋ := by
  intro rt t b pt pb h
  have h1 : 0 < (1/2 : ℚ) / b.speed := div_pos (by norm_num) h
  have h2 : 0 ≤ (b.speed + (1/2) / b.speed) * 2 := by linarith
  simp only [paddleBallResponse, truncToZero]
  rw [if_pos h2]

/-- C5 amended witness: at pre-collision speed `2` the gain is
`⌊(2 + 0.5/2) * 2⌋ = ⌊4.5⌋ = 4`. -/
theorem c5_amended_witness :
    (paddleBallResponse rtDemo ⟨(1, 1), (0, 0)⟩ ⟨16, 2⟩ ⟨(0, 0), (0, 0)⟩ ⟨1, 1⟩).2.2
      = ⌊((2 : ℚ) + (1/2) / 2) * 2⌋ ∧ ⌊((2 : ℚ) + (1/2) / 2) * 2⌋ = 4 :=
  ⟨c5_amended rtDemo ⟨(1, 1), (0, 0)⟩ ⟨16, 2⟩ ⟨(0, 0), (0, 0)⟩ ⟨1, 1⟩ (by norm_num),
   by norm_num⟩

/-- Sum of squares of a nonzero vector is positive. -/
lemma sumSq_pos_of_ne_zero (v : Vec2) (h : v ≠ (0, 0)) : 0 < v.1 ^ 2 + v.2 ^ 2 := by
  have hv : v.1 ≠ 0 ∨ v.2 ≠ 0 := by
    by_contra hc
    push_neg at hc
    exact h (Prod.ext hc.1 hc.2)
  rcases hv with hv | hv
  · have h1 : 0 < v.1 ^ 2 := lt_of_le_of_ne (sq_nonneg _) (Ne.symm (pow_ne_zero 2 hv))
    nlinarith [sq_nonneg v.2]
  · have h1 : 0 < v.2 ^ 2 := lt_of_le_of_ne (sq_nonneg _) (Ne.symm (pow_ne_zero 2 hv))
    nlinarith [sq_nonneg v.1]

/-- Renormalizing a nonzero vector to magnitude `s` by dividing by an exact
square root of its squared magnitude produces a vector of squared magnitude
`s²`. -/
lemma renorm_magSq (v : Vec2) (m s : ℚ) (hv : v ≠ (0, 0)) (hm : m ^ 2 = v.1 ^ 2 + v.2 ^ 2) :
    (v.1 / m * s) ^ 2 + (v.2 / m * s) ^ 2 = s ^ 2 := by
  have hpos : 0 < v.1 ^ 2 + v.2 ^ 2 := sumSq_pos_of_ne_zero v hv
  have hm0 : m ≠ 0 := by
    intro h0
    rw [h0] at hm
    simp at hm
    nlinarith
  have key : (v.1 / m * s) ^ 2 + (v.2 / m * s) ^ 2 = (v.1 ^ 2 + v.2 ^ 2) * s ^ 2 / m ^ 2 := by
    ring
  rw [key, ← hm, mul_comm, mul_div_assoc, div_self (pow_ne_zero 2 hm0), mul_one]

/-- C8: on every resolved paddle collision the scalar speed is updated to
exactly `speed + 0.5/speed`, hence strictly increases whenever it is
positive; and after either response (paddle or bullet) the new velocity's
squared magnitude equals the squared scalar speed that was re-pinned (the new
speed for the paddle response, the unchanged ball speed for the bullet
response), provided the pre-normalization direction is nonzero and the sqrt
oracle is exact at the point it is applied.  In this exact-rational model the
"floating tolerance" of the claim is exact equality. -/
theorem c8_speed_and_renorm :
    (∀ (rt : ℚ → ℚ) (t : Transform) (b : Ball) (pt : Transform) (pb : Bounds),
      0 < b.speed →
      (paddleBallResponse rt t b pt pb).2.1.speed = b.speed + (1/2) / b.speed ∧
      b.speed < (paddleBallResponse rt t b pt pb).2.1.speed) ∧
    (∀ (rt : ℚ → ℚ) (t : Transform) (b : Ball) (pt : Transform) (pb : Bounds),
      paddleRedirect t pt pb ≠ (0, 0) →
      rt ((paddleRedirect t pt pb).1 ^ 2 + (paddleRedirect t pt pb).2 ^ 2) ^ 2 =
        (paddleRedirect t pt pb).1 ^ 2 + (paddleRedirect t pt pb).2 ^ 2 →
      (paddleBallResponse rt t b pt pb).1.velocity.1 ^ 2 +
        (paddleBallResponse rt t b pt pb).1.velocity.2 ^ 2 =
        (b.speed + (1/2) / b.speed) ^ 2) ∧
    (∀ (rt : ℚ → ℚ) (t : Transform) (b : Ball) (bt : Transform),
      bulletRedirect t bt ≠ (0, 0) →
      rt ((bulletRedirect t bt).1 ^ 2 + (bulletRedirect t bt).2 ^ 2) ^ 2 =
        (bulletRedirect t bt).1 ^ 2 + (bulletRedirect t bt).2 ^ 2 →
      (bulletBallResponse t b bt rt).velocity.1 ^ 2 +
        (bulletBallResponse t b bt rt).velocity.2 ^ 2 = b.speed ^ 2) := by
  refine ⟨fun rt t b pt pb h => ?_, fun rt t b pt pb hv hm => ?_, fun rt t b bt hv hm => ?_⟩
  · have h1 : 0 < (1/2 : ℚ) / b.speed := div_pos (by norm_num) h
    constructor
    · simp [paddleBallResponse]
    · simp only [paddleBallResponse]
      linarith
  · simpa [paddleBallResponse] using
      renorm_magSq (paddleRedirect t pt pb)
        (rt ((paddleRedirect t pt pb).1 ^ 2 + (paddleRedirect t pt pb).2 ^ 2))
        (b.speed + (1/2) / b.speed) hv hm
  · simpa [bulletBallResponse] using
      renorm_magSq (bulletRedirect t bt)
        (rt ((bulletRedirect t bt).1 ^ 2 + (bulletRedirect t bt).2 ^ 2))
        b.speed hv hm

/-- C8 witness: the speed law at speed `2`, the paddle renormalization at
direction `(3, 4)` (magnitude 5), and the bullet renormalization at direction
`(3, 4)`, all with the demonstration oracle. -/
theorem c8_witness :
    ((paddleBallResponse rtDemo ⟨(1, 1), (0, 0)⟩ ⟨16, 2⟩ ⟨(0, 0), (0, 0)⟩ ⟨1, 1⟩).2.1.speed
        = 2 + (1/2) / 2 ∧
      (2 : ℚ) < (paddleBallResponse rtDemo ⟨(1, 1), (0, 0)⟩ ⟨16, 2⟩
        ⟨(0, 0), (0, 0)⟩ ⟨1, 1⟩).2.1.speed) ∧
    ((paddleBallResponse rtDemo ⟨(3, 4), (0, 0)⟩ ⟨16, 2⟩
        ⟨(0, 0), (0, 0)⟩ ⟨1, 1⟩).1.velocity.1 ^ 2 +
      (paddleBallResponse rtDemo ⟨(3, 4), (0, 0)⟩ ⟨16, 2⟩
        ⟨(0, 0), (0, 0)⟩ ⟨1, 1⟩).1.velocity.2 ^ 2 = ((2 : ℚ) + (1/2) / 2) ^ 2) ∧
    ((bulletBallResponse ⟨(6, 8), (0, 0)⟩ ⟨16, 2⟩ ⟨(0, 0), (0, 0)⟩ rtDemo).velocity.1 ^ 2 +
      (bulletBallResponse ⟨(6, 8), (0, 0)⟩ ⟨16, 2⟩ ⟨(0, 0), (0, 0)⟩ rtDemo).velocity.2 ^ 2
        = (2 : ℚ) ^ 2) :=
  ⟨c8_speed_and_renorm.1 rtDemo ⟨(1, 1), (0, 0)⟩ ⟨16, 2⟩ ⟨(0, 0), (0, 0)⟩ ⟨1, 1⟩
      (by norm_num),
   c8_speed_and_renorm.2.1 rtDemo ⟨(3, 4), (0, 0)⟩ ⟨16, 2⟩ ⟨(0, 0), (0, 0)⟩ ⟨1, 1⟩
      (by norm_num [paddleRedirect, Prod.ext_iff]) (by norm_num [paddleRedirect, rtDemo]),
   c8_speed_and_renorm.2.2 rtDemo ⟨(6, 8), (0, 0)⟩ ⟨16, 2⟩ ⟨(0, 0), (0, 0)⟩
      (by norm_num [bulletRedirect, Prod.ext_iff]) (by norm_num [bulletRedirect, rtDemo])⟩

/-- C6: while `hitstun > 0` a tick is exactly the decrement of `hitstun` — no
entity position or velocity, no score, no phase (indeed no state field at
all) changes; a tick with `hitstun ≤ 0` is the full simulated frame; and from
`hitstun = 3`, three consecutive ticks bring `hitstun` to `0` with everything
else untouched, after which the next tick resumes normal simulation by the
second conjunct. -/
theorem c6_hitstun_freeze :
    ∀ (e : GameEnv) (s : WorldState),
      (0 < s.hitstun → tick e s = { s with hitstun := s.hitstun - 1 }) ∧
      (s.hitstun ≤ 0 → tick e s = simFrame e s) ∧
      (∀ e2 e3 : GameEnv, s.hitstun = 3 →
        tick e3 (tick e2 (tick e s)) = { s with hitstun := 0 }) := by
  intro e s
  refine ⟨fun h => ?_, fun h => ?_, fun e2 e3 h => ?_⟩
  · simp [tick, not_le.mpr h]
  · simp [tick, h]
  · have h1 : tick e s = { s with hitstun := 2 } := by
      have := not_le.mpr (show (0 : ℤ) < s.hitstun by omega)
      simp [tick, this, h]
    have h2 : tick e2 { s with hitstun := (2 : ℤ) } = { s with hitstun := 1 } := by
      norm_num [tick]
    have h3 : tick e3 { s with hitstun := (1 : ℤ) } = { s with hitstun := 0 } := by
      norm_num [tick]
    rw [h1, h2, h3]

/-- C6 witness: three frozen ticks on a concrete world with `hitstun = 3`. -/
theorem c6_witness :
    tick envDemo ⟨[], [], [], 0, Phase.Start, 0, 0, 0, 3, false⟩ =
      { (⟨[], [], [], 0, Phase.Start, 0, 0, 0, 3, false⟩ : WorldState) with hitstun := 2 } ∧
    tick envDemo (tick envDemo (tick envDemo
        ⟨[], [], [], 0, Phase.Start, 0, 0, 0, 3, false⟩)) =
      { (⟨[], [], [], 0, Phase.Start, 0, 0, 0, 3, false⟩ : WorldState) with hitstun := 0 } :=
  ⟨by
    have := (c6_hitstun_freeze envDemo ⟨[], [], [], 0, Phase.Start, 0, 0, 0, 3, false⟩).1
      (by norm_num)
    simpa using this,
   (c6_hitstun_freeze envDemo ⟨[], [], [], 0, Phase.Start, 0, 0, 0, 3, false⟩).2.2
     envDemo envDemo rfl⟩

/-- C7: when the phase is not `Ongoing`, the start edge is observed and (by
the `tick` conjuncts) `hitstun ≤ 0`, the transition spawns exactly one new
ball at field center with speed `screen_width/1280` — moving right unless the
previous phase was `RightWin`, in which case it moves left — resets every
paddle's `Bounds` to the full `(16, 64)`, sets the phase to `Ongoing`, and
leaves both scores unchanged; without the start edge (or from `Ongoing`) the
state change does nothing, and while `hitstun > 0` the tick changes neither
the phase nor the ball set. -/
theorem c7_restart_transition :
    ∀ (e : GameEnv) (s : WorldState),
      (s.phase ≠ Phase.Ongoing → e.spacePressed = true →
        stateChange e s = { s with
          balls := s.balls ++ [(s.nextId,
            { position := (e.screenW / 2, e.screenH / 2),
              velocity := (e.screenW / 1280 *
                (boolToQ (s.phase ≠ Phase.RightWin) - boolToQ (s.phase = Phase.RightWin)),
                0) },
            { radius := 16, speed := e.screenW / 1280 })],
          nextId := s.nextId + 1,
          paddles := s.paddles.map fun p => (p.1, p.2.1, ⟨16, 64⟩, p.2.2.2),
          phase := Phase.Ongoing } ∧
        (stateChange e s).left_score = s.left_score ∧
        (stateChange e s).right_score = s.right_score) ∧
      (0 < e.screenW → s.phase = Phase.LeftWin →
        0 < e.screenW / 1280 *
          (boolToQ (s.phase ≠ Phase.RightWin) - boolToQ (s.phase = Phase.RightWin))) ∧
      (0 < e.screenW → s.phase = Phase.RightWin →
        e.screenW / 1280 *
          (boolToQ (s.phase ≠ Phase.RightWin) - boolToQ (s.phase = Phase.RightWin)) < 0) ∧
      (s.phase = Phase.Ongoing ∨ e.spacePressed = false → stateChange e s = s) ∧
      (s.hitstun ≤ 0 → tick e s = threeSubsteps e (stateChange e s)) ∧
      (0 < s.hitstun → (tick e s).phase = s.phase ∧ (tick e s).balls = s.balls) := by
  intro e s
  refine ⟨fun h hs => ?_, fun hw h => ?_, fun hw h => ?_, fun h => ?_, fun h => ?_, fun h => ?_⟩
  · have hc : s.phase ≠ Phase.Ongoing ∧ e.spacePressed := ⟨h, by rw [hs]⟩
    rw [stateChange, if_pos hc]
    exact ⟨rfl, rfl, rfl⟩
  · have h1 : s.phase ≠ Phase.RightWin := by rw [h]; exact fun hc => by cases hc
    have h2 : boolToQ (s.phase ≠ Phase.RightWin) = 1 := by simp [boolToQ, h1]
    have h3 : boolToQ (s.phase = Phase.RightWin) = 0 := by simp [boolToQ, h1]
    rw [h2, h3]
    have : 0 < e.screenW / 1280 := by positivity
    linarith
  · have h2 : boolToQ (s.phase ≠ Phase.RightWin) = 0 := by simp [boolToQ, h]
    have h3 : boolToQ (s.phase = Phase.RightWin) = 1 := by simp [boolToQ, h]
    rw [h2, h3]
    have : 0 < e.screenW / 1280 := by positivity
    linarith
  · rcases h with h | h
    · rw [stateChange, if_neg]
      intro hc
      exact hc.1 h
    · rw [stateChange, if_neg]
      intro hc
      rw [h] at hc
      exact Bool.false_ne_true hc.2
  · rw [tick, if_pos h]
    rfl
  · simp [tick, not_le.mpr h]

/-- C7 witness: the spec's restart scenario — phase `LeftWin`, scores 2-1,
start pressed, `hitstun = 0` — spawns the ball at the center of the 100×100
demo field with positive (rightward) horizontal velocity, resets the worn
paddle's bounds to `(16, 64)`, sets the phase to `Ongoing` and keeps the
scores. -/
theorem c7_witness :
    stateChange envDemo
        ⟨[], [(0, ⟨(64, 50), (0, 0)⟩, ⟨16, 50⟩, ControlType.Player 0 0)], [], 1,
          Phase.LeftWin, 2, 1, 0, 0, false⟩ =
      { (⟨[], [(0, ⟨(64, 50), (0, 0)⟩, ⟨16, 50⟩, ControlType.Player 0 0)], [], 1,
          Phase.LeftWin, 2, 1, 0, 0, false⟩ : WorldState) with
        balls := [] ++ [(1,
          { position := ((100 : ℚ) / 2, (100 : ℚ) / 2),
            velocity := ((100 : ℚ) / 1280 *
              (boolToQ (Phase.LeftWin ≠ Phase.RightWin) -
               boolToQ (Phase.LeftWin = Phase.RightWin)), 0) },
          { radius := 16, speed := (100 : ℚ) / 1280 })],
        nextId := 2,
        paddles := [(0, ⟨(64, 50), (0, 0)⟩, ⟨16, 64⟩, ControlType.Player 0 0)],
        phase := Phase.Ongoing } ∧
    (0 : ℚ) < (100 : ℚ) / 1280 *
      (boolToQ (Phase.LeftWin ≠ Phase.RightWin) - boolToQ (Phase.LeftWin = Phase.RightWin)) := by
  have hmain := (c7_restart_transition envDemo
    ⟨[], [(0, ⟨(64, 50), (0, 0)⟩, ⟨16, 50⟩, ControlType.Player 0 0)], [], 1,
      Phase.LeftWin, 2, 1, 0, 0, false⟩).1 (by intro hc; cases hc) rfl
  have hsign := (c7_restart_transition envDemo
    ⟨[], [(0, ⟨(64, 50), (0, 0)⟩, ⟨16, 50⟩, ControlType.Player 0 0)], [], 1,
      Phase.LeftWin, 2, 1, 0, 0, false⟩).2.1 (by norm_num [envDemo]) rfl
  refine ⟨?_, ?_⟩
  · have h1 := hmain.1
    simpa [envDemo] using h1
  · simpa [envDemo] using hsign

/-- C3 counterexample: an identifier marked twice (as a bullet overlapping
both a ball and a paddle in the same substep would be) makes the removal step
panic — here modelled by the `crashed` flag — instead of tolerating the
second despawn as a no-op. -/
theorem c3_counterexample :
    (removeMarked [7, 7]
        ⟨[], [], [(7, ⟨(0, 0), (0, 0)⟩, ⟨2⟩)], 8, Phase.Ongoing, 0, 0, 0, 0, false⟩).crashed
      = true := by
  simp [removeMarked, despawn, idLive]

/-- A live identifier other than the one despawned stays live. -/
lemma idLive_after_filter (i j : ℕ) (s : WorldState) (hne : j ≠ i)
    (h : idLive j s = true) :
    idLive j { s with
      balls := s.balls.filter fun b => b.1 ≠ i
      paddles := s.paddles.filter fun p => p.1 ≠ i
      bullets := s.bullets.filter fun b => b.1 ≠ i } = true := by
  simp only [idLive, Bool.or_eq_true, List.any_eq_true, decide_eq_true_eq] at h ⊢
  rcases h with (⟨b, hb, hbj⟩ | ⟨p, hp, hpj⟩) | ⟨b, hb, hbj⟩
  · exact Or.inl (Or.inl ⟨b, List.mem_filter.mpr ⟨hb, by simp [hbj, hne]⟩, hbj⟩)
  · exact Or.inl (Or.inr ⟨p, List.mem_filter.mpr ⟨hp, by simp [hpj, hne]⟩, hpj⟩)
  · exact Or.inr ⟨b, List.mem_filter.mpr ⟨hb, by simp [hbj, hne]⟩, hbj⟩

/-- `removeMarked` never revives an identifier: if no bullet carries `j`, none
does afterwards. -/
lemma removeMarked_no_revive (j : ℕ) :
    ∀ (marks : List ℕ) (s : WorldState),
      (∀ b ∈ s.bullets, b.1 ≠ j) → ∀ b ∈ (removeMarked marks s).bullets, b.1 ≠ j := by
  intro marks
  induction marks with
  | nil => intro s h; exact h
  | cons i rest ih =>
    intro s h
    rw [removeMarked]
    cases hd : despawn i s with
    | none => exact h
    | some s' =>
      apply ih
      intro b hb
      rw [despawn] at hd
      by_cases hl : idLive i s = true
      · rw [if_pos hl] at hd
        cases hd
        exact h b (List.mem_of_mem_filter hb)
      · rw [if_neg hl] at hd
        cases hd

/-- A bullet whose identifier is not marked survives `removeMarked`. -/
lemma removeMarked_keep (b : ℕ × Transform × Bullet) :
    ∀ (marks : List ℕ) (s : WorldState),
      b ∈ s.bullets → b.1 ∉ marks → b ∈ (removeMarked marks s).bullets := by
  intro marks
  induction marks with
  | nil => intro s h _; exact h
  | cons i rest ih =>
    intro s h hnm
    rw [removeMarked]
    cases hd : despawn i s with
    | none => exact h
    | some s' =>
      apply ih
      · rw [despawn] at hd
        by_cases hl : idLive i s = true
        · rw [if_pos hl] at hd
          cases hd
          refine List.mem_filter.mpr ⟨h, ?_⟩
          simp only [decide_eq_true_eq]
          intro hbi
          exact hnm (by simp [hbi])
        · rw [if_neg hl] at hd
          cases hd
      · intro hc
        exact hnm (by simp [hc])

/-- C3 (amended): for distinct removal marks that are all live, the removal
step despawns exactly the marked bullets — each marked identifier is gone
afterwards, every unmarked bullet survives — and increments `hitstun` by
exactly 1 per mark without panicking; but despawning an identifier that no
longer exists (e.g. a bullet marked by both the ball test and the paddle test
of the same substep) panics and aborts the match rather than being tolerated
as a no-op. -/
theorem c3_amended :
    ∀ (marks : List ℕ) (s : WorldState), marks.Nodup →
      (∀ i ∈ marks, idLive i s = true) →
      (removeMarked marks s).hitstun = s.hitstun + marks.length ∧
      (removeMarked marks s).crashed = s.crashed ∧
      (∀ j ∈ marks, ∀ b ∈ (removeMarked marks s).bullets, b.1 ≠ j) ∧
      (∀ b ∈ s.bullets, b.1 ∉ marks → b ∈ (removeMarked marks s).bullets) := by
  intro marks
  induction marks with
  | nil =>
    intro s _ _
    refine ⟨by simp [removeMarked], by simp [removeMarked], by simp, fun b hb _ => hb⟩
  | cons i rest ih =>
    intro s hnd hlive
    have hi : idLive i s = true := hlive i (by simp)
    have hd : despawn i s = some { s with
        balls := s.balls.filter fun b => b.1 ≠ i
        paddles := s.paddles.filter fun p => p.1 ≠ i
        bullets := s.bullets.filter fun b => b.1 ≠ i } := by
      rw [despawn, if_pos hi]
    have hnd' : rest.Nodup := (List.nodup_cons.mp hnd).2
    have hini : i ∉ rest := (List.nodup_cons.mp hnd).1
    set s2 : WorldState := { s with
      balls := s.balls.filter fun b => b.1 ≠ i
      paddles := s.paddles.filter fun p => p.1 ≠ i
      bullets := s.bullets.filter fun b => b.1 ≠ i
      hitstun := s.hitstun + 1 } with hs2
    have hstep : removeMarked (i :: rest) s = removeMarked rest s2 := by
      rw [removeMarked, hd]
    have hlive2 : ∀ j ∈ rest, idLive j s2 = true := by
      intro j hj
      have hne : j ≠ i := fun hc => hini (hc ▸ hj)
      have := idLive_after_filter i j s hne (hlive j (by simp [hj]))
      simpa [hs2, idLive] using this
    obtain ⟨ihh, ihc, ihgone, ihkeep⟩ := ih s2 hnd' hlive2
    refine ⟨?_, ?_, ?_, ?_⟩
    · rw [hstep, ihh]
      simp [hs2]
      omega
    · rw [hstep, ihc]
    · intro j hj b hb
      rcases List.mem_cons.mp hj with hj | hj
      · subst hj
        rw [hstep] at hb
        refine removeMarked_no_revive j rest s2 ?_ b hb
        intro b' hb'
        have := List.mem_filter.mp hb'
        simpa using this.2
      · exact ihgone j hj b (hstep ▸ hb)
    · intro b hb hnm
      rw [hstep]
      have hbi : b.1 ≠ i := fun hc => hnm (by simp [hc])
      refine ihkeep b ?_ ?_
      · exact List.mem_filter.mpr ⟨hb, by simpa using hbi⟩
      · intro hc
        exact hnm (by simp [hc])

/-- C3 amended witness: a single live mark is despawned, `hitstun` rises by
exactly 1, and no panic occurs. -/
theorem c3_amended_witness :
    (removeMarked [5]
        ⟨[], [], [(5, ⟨(0, 0), (0, 0)⟩, ⟨2⟩)], 6, Phase.Ongoing, 0, 0, 0, 0, false⟩).hitstun
      = 0 + 1 ∧
    (removeMarked [5]
        ⟨[], [], [(5, ⟨(0, 0), (0, 0)⟩, ⟨2⟩)], 6, Phase.Ongoing, 0, 0, 0, 0, false⟩).crashed
      = false := by
  have h := c3_amended [5]
    ⟨[], [], [(5, ⟨(0, 0), (0, 0)⟩, ⟨2⟩)], 6, Phase.Ongoing, 0, 0, 0, 0, false⟩
    (by simp) (by simp [idLive])
  exact ⟨by simpa using h.1, by simpa using h.2.1⟩

/-- The phase state change never touches the bullet list. -/
lemma stateChange_bullets (e : GameEnv) (s : WorldState) :
    (stateChange e s).bullets = s.bullets := by
  rw [stateChange]
  split <;> rfl

/-- The bullet scan mutates only balls and paddles, never the bullet list. -/
lemma scanBullets_fst_bullets (e : GameEnv) :
    ∀ (l : List (ℕ × Transform × Bullet)) (s : WorldState),
      (scanBullets e l s).1.bullets = s.bullets := by
  intro l
  induction l with
  | nil => intro s; rfl
  | cons hd rest ih =>
    intro s
    obtain ⟨i, t, bl⟩ := hd
    simp only [scanBullets]
    exact ih _

/-- The per-ball loop never touches the bullet list. -/
lemma ballLoop_bullets (e : GameEnv) (snap : List (ℕ × Transform × Bounds)) :
    ∀ (l acc : List (ℕ × Transform × Ball)) (s : WorldState),
      (ballLoop e snap l acc s).bullets = s.bullets := by
  intro l
  induction l with
  | nil => intro acc s; rfl
  | cons hd rest ih =>
    intro acc s
    obtain ⟨i, t, b⟩ := hd
    rw [ballLoop]
    split
    · rfl
    · split
      · rfl
      · exact ih _ _

/-- The ball pass never touches the bullet list. -/
lemma ballPass_bullets (e : GameEnv) (s : WorldState) :
    (ballPass e s).bullets = s.bullets := by
  simp only [ballPass]
  exact ballLoop_bullets e _ s.balls [] _

/-- Integrating preserves velocities. -/
lemma integTransform_velocity (e : GameEnv) (t : Transform) :
    (integTransform e t).velocity = t.velocity := rfl

/-- `clampQ` lands in the clamping interval. -/
lemma clampQ_mem_Icc (x lo hi : ℚ) (h : lo ≤ hi) :
    lo ≤ clampQ x lo hi ∧ clampQ x lo hi ≤ hi := by
  unfold clampQ
  split_ifs with h1 h2
  · exact ⟨le_refl _, h⟩
  · exact ⟨h, le_refl _⟩
  · exact ⟨by linarith, by linarith⟩

/-- Core survival lemma: a bullet whose identifier is not among a substep's
removal marks passes through the substep with its transform integrated once
and everything else unchanged. -/
lemma substep_bullet_mem (e : GameEnv) (s : WorldState) (i : ℕ) (t : Transform)
    (bl : Bullet) (hmem : (i, t, bl) ∈ s.bullets) (hmk : i ∉ substepMarks e s) :
    (i, integTransform e t, bl) ∈ (substep e s).bullets := by
  have h1 : (i, integTransform e t, bl) ∈ (integrateAll e s).bullets := by
    simp only [integrateAll, List.mem_map]
    exact ⟨(i, t, bl), hmem, rfl⟩
  have h2 : (i, integTransform e t, bl) ∈ (paddleProc e (integrateAll e s)).bullets := by
    simp only [paddleProc]
    exact List.mem_append_left _ h1
  simp only [substep]
  rw [ballPass_bullets]
  have hmk' : i ∉ (scanBullets e (paddleProc e (integrateAll e s)).bullets
      (paddleProc e (integrateAll e s))).2 := hmk
  refine removeMarked_keep (i, integTransform e t, bl) _ _ ?_ hmk'
  rw [scanBullets_fst_bullets]
  exact h2

/-- C10: during a frame, bullets are removed only by the bullet-collision
removal step.  A frozen tick leaves the bullet list untouched; in an active
tick, a bullet that resolves no collision in any of the three substeps is
still live afterwards with its velocity unchanged and its position integrated
three times with each axis clamped into `[-16, dimension + 16]`, so it stays
able to collide on later frames (no out-of-field or lifetime despawn
exists). -/
theorem c10_bullet_persistence :
    ∀ (e : GameEnv) (s : WorldState) (i : ℕ) (t : Transform) (bl : Bullet),
      (0 < s.hitstun → (tick e s).bullets = s.bullets) ∧
      (s.hitstun ≤ 0 → (i, t, bl) ∈ s.bullets →
        i ∉ substepMarks e (stateChange e s) →
        i ∉ substepMarks e (substep e (stateChange e s)) →
        i ∉ substepMarks e (substep e (substep e (stateChange e s))) →
        (i, integTransform e (integTransform e (integTransform e t)), bl)
            ∈ (tick e s).bullets ∧
        (integTransform e (integTransform e (integTransform e t))).velocity = t.velocity ∧
        (0 ≤ e.screenW →
          -16 ≤ (integTransform e (integTransform e (integTransform e t))).position.1 ∧
          (integTransform e (integTransform e (integTransform e t))).position.1
            ≤ e.screenW + 16) ∧
        (0 ≤ e.screenH →
          -16 ≤ (integTransform e (integTransform e (integTransform e t))).position.2 ∧
          (integTransform e (integTransform e (integTransform e t))).position.2
            ≤ e.screenH + 16)) := by
  intro e s i t bl
  constructor
  · intro h
    simp [tick, not_le.mpr h]
  · intro hstun hmem hm1 hm2 hm3
    have hb0 : (i, t, bl) ∈ (stateChange e s).bullets := by
      rw [stateChange_bullets]
      exact hmem
    have hb1 := substep_bullet_mem e (stateChange e s) i t bl hb0 hm1
    have hb2 := substep_bullet_mem e (substep e (stateChange e s)) i
      (integTransform e t) bl hb1 hm2
    have hb3 := substep_bullet_mem e (substep e (substep e (stateChange e s))) i
      (integTransform e (integTransform e t)) bl hb2 hm3
    refine ⟨?_, rfl, fun hw => ?_, fun hh => ?_⟩
    · rw [tick, if_pos hstun]
      exact hb3
    · exact clampQ_mem_Icc _ (-16) (e.screenW + 16) (by linarith)
    · exact clampQ_mem_Icc _ (-16) (e.screenH + 16) (by linarith)

/-- C10 witness: in a world holding one bullet and nothing it can collide
with, an active tick keeps the bullet live, moves it by its velocity three
times within the clamped field, and leaves its velocity untouched. -/
theorem c10_witness :
    ((0 : ℕ), integTransform envQuiet (integTransform envQuiet (integTransform envQuiet
        ⟨(50, 50), (1, 0)⟩)), (⟨2⟩ : Bullet)) ∈
      (tick envQuiet
        ⟨[], [], [(0, ⟨(50, 50), (1, 0)⟩, ⟨2⟩)], 1, Phase.Ongoing, 0, 0, 0, 0, false⟩).bullets ∧
    (integTransform envQuiet (integTransform envQuiet (integTransform envQuiet
        ⟨(50, 50), (1, 0)⟩))).velocity = (Transform.mk (50, 50) (1, 0)).velocity ∧
    (0 ≤ envQuiet.screenW →
      -16 ≤ (integTransform envQuiet (integTransform envQuiet (integTransform envQuiet
        ⟨(50, 50), (1, 0)⟩))).position.1 ∧
      (integTransform envQuiet (integTransform envQuiet (integTransform envQuiet
        ⟨(50, 50), (1, 0)⟩))).position.1 ≤ envQuiet.screenW + 16) ∧
    (0 ≤ envQuiet.screenH →
      -16 ≤ (integTransform envQuiet (integTransform envQuiet (integTransform envQuiet
        ⟨(50, 50), (1, 0)⟩))).position.2 ∧
      (integTransform envQuiet (integTransform envQuiet (integTransform envQuiet
        ⟨(50, 50), (1, 0)⟩))).position.2 ≤ envQuiet.screenH + 16) :=
  (c10_bullet_persistence envQuiet
      ⟨[], [], [(0, ⟨(50, 50), (1, 0)⟩, ⟨2⟩)], 1, Phase.Ongoing, 0, 0, 0, 0, false⟩
      0 ⟨(50, 50), (1, 0)⟩ ⟨2⟩).2 (by norm_num) (by simp)
    (by norm_num [substepMarks, stateChange, envQuiet, integrateAll, paddleProc, assignIds,
        scanBullets, bulletVsBalls, bulletVsPaddles, integTransform, clampQ])
    (by norm_num [substepMarks, substep, stateChange, envQuiet, integrateAll, paddleProc,
        assignIds, scanBullets, bulletVsBalls, bulletVsPaddles, integTransform, clampQ,
        removeMarked, ballPass, ballLoop])
    (by norm_num [substepMarks, substep, stateChange, envQuiet, integrateAll, paddleProc,
        assignIds, scanBullets, bulletVsBalls, bulletVsPaddles, integTransform, clampQ,
        removeMarked, ballPass, ballLoop])

end Pong
